import Mathlib

/-!
Verification development for the Winwing FCU bridge (`winwing_fcu.py`).

The Python source is shallowly embedded below.  Conventions used by the
embedding:

* Python `dict` tables are association lists; dict lookup that can raise
  `KeyError` is `Option`-valued.
* Python machine values cached from telemetry are `Option Int`
  (`None` = not yet received); raw telemetry floats are modelled as exact
  fractions (`PyFloat`), with `pyTrunc` playing the role of Python's
  `int()` truncation.
* Code paths that raise an uncaught exception (`TypeError` from comparing
  `None`, `KeyError` from the glyph table, `NameError` from a loop-local
  variable that was never assigned) are modelled as `Except.error ()` /
  `Option.none`.
* USB transport writes are modelled by Boolean outcome oracles (`ok1`,
  `ok2` for the content and commit frame of the main display); the frames
  handed to `ep.write` are returned as byte lists.
* The embedding covers the FCU-only device configuration
  (`device_config = DEVICEMASK.FCU`); the EFIS-R/EFIS-L guards from the
  source are kept as constant `false` configuration switches.
-/

namespace WinwingFcu

/-- Python float values are modelled as exact fractions (numerator /
    denominator, denominator kept positive by all operations used here);
    no gcd normalisation is performed so that every operation reduces in
    the kernel. -/
structure PyFloat where
  num : Int
  den : Int
deriving DecidableEq

instance : OfNat PyFloat n := ⟨⟨(n : Int), 1⟩⟩

instance : OfScientific PyFloat :=
  ⟨fun m s e => if s then ⟨(m : Int), ((10 ^ e : Nat) : Int)⟩ else ⟨((m * 10 ^ e : Nat) : Int), 1⟩⟩

def PyFloat.ofInt (n : Int) : PyFloat := ⟨n, 1⟩

def PyFloat.add (a b : PyFloat) : PyFloat :=
  ⟨a.num * b.den + b.num * a.den, a.den * b.den⟩

def PyFloat.mul (a b : PyFloat) : PyFloat :=
  ⟨a.num * b.num, a.den * b.den⟩

def PyFloat.div (a b : PyFloat) : PyFloat :=
  ⟨a.num * b.den, a.den * b.num⟩

instance : Add PyFloat := ⟨PyFloat.add⟩
instance : Mul PyFloat := ⟨PyFloat.mul⟩
instance : Div PyFloat := ⟨PyFloat.div⟩

/-- Comparison `a <= b` on fractions with positive denominators. -/
def PyFloat.le (a b : PyFloat) : Bool := a.num * b.den ≤ b.num * a.den

/-- Comparison `a < b` on fractions with positive denominators. -/
def PyFloat.lt (a b : PyFloat) : Bool := a.num * b.den < b.num * a.den

/-- Python truncating conversion `int()`: rounds toward zero
    (`Int.tdiv` truncates toward zero, matching Python `int(x)`). -/
def pyTrunc (q : PyFloat) : Int :=
  Int.tdiv q.num q.den

/-- Truthiness of a cached value: Python `bool(None) = False`,
    `bool(0) = False`, any other int is truthy. -/
def pyTruthy : Option Int → Bool
  | Option.none => false
  | some n => n ≠ 0

/-- Python `str.rjust(l, c)` (no truncation). -/
def strRjust (s : String) (l : Nat) (c : Char) : String :=
  String.mk (List.replicate (l - s.length) c) ++ s

/-- Python `str.ljust(l, c)` (no truncation). -/
def strLjust (s : String) (l : Nat) (c : Char) : String :=
  s ++ String.mk (List.replicate (l - s.length) c)

/-- Python `str.upper()` (per-character, over the character list so that
    it reduces in the kernel). -/
def strUpper (s : String) : String := String.mk (s.data.map Char.toUpper)

/-- A Python value that can be handed to `string_fix_length`:
    an int, a string, or `None` (whose `str()` is `"None"`). -/
inductive PyVal where
  | int (n : Int)
  | str (s : String)
  | none
deriving DecidableEq

/-- Python `str(v)`. -/
def pyValStr : PyVal → String
  | PyVal.int n => toString n
  | PyVal.str s => s
  | PyVal.none => "None"

/-- Lift a cached telemetry value to the Python value passed around by
    `set_datacache` (a cached `None` flows through as the object `None`). -/
def optToPy : Option Int → PyVal
  | Option.none => PyVal.none
  | some n => PyVal.int n

/-- The 7-segment glyph table `representations` (winwing_fcu.py:120). -/
def representationsList : List (Char × Nat) :=
  [('0', 0xfa), ('1', 0x60), ('2', 0xd6), ('3', 0xf4), ('4', 0x6c),
   ('5', 0xbc), ('6', 0xbe), ('7', 0xe0), ('8', 0xfe), ('9', 0xfc),
   ('A', 0xee), ('B', 0xfe), ('C', 0x9a), ('D', 0x76), ('E', 0x9e),
   ('F', 0x8e), ('G', 0xbe), ('H', 0x6e), ('I', 0x60), ('J', 0x70),
   ('K', 0x0e), ('L', 0x1a), ('M', 0xa6), ('N', 0x26), ('O', 0xfa),
   ('P', 0xce), ('Q', 0xec), ('R', 0x06), ('S', 0xbc), ('T', 0x1e),
   ('U', 0x7a), ('V', 0x32), ('W', 0x58), ('X', 0x6e), ('Y', 0x7c),
   ('Z', 0xd6), ('-', 0x04), ('#', 0x36), ('/', 0x60), ('\\', 0xa0),
   (' ', 0x00)]

/-- Dict lookup in the glyph table; `Option.none` models `KeyError`. -/
def representations (c : Char) : Option Nat :=
  representationsList.lookup c

/-- Function `swap_nibbles` (winwing_fcu.py:221). -/
def swap_nibbles (x : Nat) : Nat :=
  ((x &&& 0x0F) <<< 4) ||| ((x &&& 0xF0) >>> 4)

/-- Encoder `data_from_string` (winwing_fcu.py:256): fills a zero array of length
    `l`, placing the glyph of character `i` at index `l-1-i`, for the first
    `min l s.length` characters of the upper-cased string.  `Option.none`
    models the `KeyError` raised on an unmapped character.
    `dfsStep` is the loop body: glyph lookup of character `i`, placed at
    index `l-1-i`. -/
def dfsStep (l : Nat) (s : String) (d : List Nat) (i : Nat) : Option (List Nat) :=
  match (strUpper s).toList.get? i with
  | Option.none => Option.none
  | some c =>
    match representations c with
    | Option.none => Option.none
    | some p => some (d.set (l - 1 - i) p)

def data_from_string (l : Nat) (s : String) : Option (List Nat) :=
  (List.range (min l s.length)).foldlM (dfsStep l s) (List.replicate l 0)

/-- Encoder `data_from_string_swapped` (winwing_fcu.py:265): appends a spare byte,
    nibble-swaps every byte, then redistributes nibbles between adjacent
    bytes exactly as the source loop does. -/
def data_from_string_swapped (l : Nat) (s : String) : Option (List Nat) := do
  let d0 ← data_from_string l s
  let d1 := (d0 ++ [0]).map swap_nibbles
  pure <| (List.range (d1.length - 1)).foldl
    (fun d i =>
      let hi := d.getD (l - i) 0
      let lo := d.getD (l - 1 - i) 0
      let d := d.set (l - i) ((hi &&& 0x0f) ||| (lo &&& 0xf0))
      d.set (l - 1 - i) (lo &&& 0x0f))
    d1

/-- The per-byte bit rearrangement applied by
    `data_from_string_swapped_efis` (winwing_fcu.py:291-299). -/
def efisByte (b : Nat) : Nat :=
  (if b &&& 0x08 ≠ 0 then 0x01 else 0) |||
  (if b &&& 0x04 ≠ 0 then 0x02 else 0) |||
  (if b &&& 0x02 ≠ 0 then 0x04 else 0) |||
  (if b &&& 0x10 ≠ 0 then 0x08 else 0) |||
  (if b &&& 0x80 ≠ 0 then 0x10 else 0) |||
  (if b &&& 0x40 ≠ 0 then 0x20 else 0) |||
  (if b &&& 0x20 ≠ 0 then 0x40 else 0) |||
  (if b &&& 0x01 ≠ 0 then 0x80 else 0)

/-- Encoder `data_from_string_swapped_efis` (winwing_fcu.py:283): the base encoding
    with `efisByte` applied to every byte. -/
def data_from_string_swapped_efis (l : Nat) (s : String) : Option (List Nat) :=
  (data_from_string l s).map (List.map efisByte)

/-- Modelled from the spec: the inverse bit placement of the secondary
    (EFIS) display variant — the spec's round-trip property (§8) speaks of
    "the inverse bit-placement used by the secondary variant", which the
    source does not define; each destination bit is sent back to the source
    bit `efisByte` took it from. -/
def efisByteInv (b : Nat) : Nat :=
  (if b &&& 0x01 ≠ 0 then 0x08 else 0) |||
  (if b &&& 0x02 ≠ 0 then 0x04 else 0) |||
  (if b &&& 0x04 ≠ 0 then 0x02 else 0) |||
  (if b &&& 0x08 ≠ 0 then 0x10 else 0) |||
  (if b &&& 0x10 ≠ 0 then 0x80 else 0) |||
  (if b &&& 0x20 ≠ 0 then 0x40 else 0) |||
  (if b &&& 0x40 ≠ 0 then 0x20 else 0) |||
  (if b &&& 0x80 ≠ 0 then 0x01 else 0)

/-- The bit-position map realised by `efisByte`: source bit `i` of a glyph
    byte lands at position `efisTargetBit i` (read off winwing_fcu.py:292-299). -/
def efisTargetBit : Nat → Nat
  | 0 => 7
  | 1 => 2
  | 2 => 1
  | 3 => 0
  | 4 => 3
  | 5 => 6
  | 6 => 5
  | _ => 4

/-- Function `string_fix_length` (winwing_fcu.py:303): `str(v).rjust(l, '0')`. -/
def string_fix_length (v : PyVal) (l : Nat) : String :=
  strRjust (pyValStr v) l '0'

/-- The byte-slot enumeration `Byte` (winwing_fcu.py:164). -/
inductive Byte where
  | H0 | H3 | A0 | A1 | A2 | A3 | A4 | A5 | V2 | V3 | V0 | V1 | S1
  | EFISR_B0 | EFISR_B2 | EFISL_B0 | EFISL_B2
deriving DecidableEq

/-- The `Flag` dataclass (winwing_fcu.py:185); `value` carries the
    dataclass default / initial value from the `flags` dict. -/
structure Flag where
  name : String
  byte : Byte
  mask : Nat
  value : Bool := false
deriving DecidableEq

/-- The `flags` dict (winwing_fcu.py:193), in source order, keyed by the
    dict key. -/
def flagsList : List (String × Flag) :=
  [("spd", ⟨"spd-mach_spd", Byte.H3, 0x08, false⟩),
   ("mach", ⟨"spd-mach_mach", Byte.H3, 0x04, false⟩),
   ("hdg", ⟨"hdg-trk-lat_hdg", Byte.H0, 0x80, false⟩),
   ("trk", ⟨"hdg-trk-lat_trk", Byte.H0, 0x40, false⟩),
   ("lat", ⟨"hdg-trk-lat_lat", Byte.H0, 0x20, true⟩),
   ("vshdg", ⟨"hdg-v/s_hdg", Byte.A5, 0x08, false⟩),
   ("vs", ⟨"hdg-v/s_v/s", Byte.A5, 0x04, false⟩),
   ("ftrk", ⟨"trk-fpa_trk", Byte.A5, 0x02, false⟩),
   ("ffpa", ⟨"trk-fpa_fpa", Byte.A5, 0x01, false⟩),
   ("alt", ⟨"alt", Byte.A4, 0x10, true⟩),
   ("hdg_managed", ⟨"hdg managed", Byte.H0, 0x10, false⟩),
   ("spd_managed", ⟨"spd managed", Byte.H3, 0x02, false⟩),
   ("alt_managed", ⟨"alt_managed", Byte.V1, 0x10, false⟩),
   ("vs_horz", ⟨"v/s plus horizontal", Byte.A0, 0x10, true⟩),
   ("vs_vert", ⟨"v/s plus vertical", Byte.V2, 0x10, false⟩),
   ("lvl", ⟨"lvl change", Byte.A2, 0x10, true⟩),
   ("lvl_left", ⟨"lvl change left", Byte.A3, 0x10, true⟩),
   ("lvl_right", ⟨"lvl change right", Byte.A1, 0x10, true⟩),
   ("fvs", ⟨"v/s-fpa_v/s", Byte.V0, 0x40, false⟩),
   ("ffpa2", ⟨"v/s-fpa_fpa", Byte.V0, 0x80, false⟩),
   ("fpa_comma", ⟨"fpa_comma", Byte.V3, 0x10, false⟩),
   ("mach_comma", ⟨"mach_comma", Byte.S1, 0x01, false⟩),
   ("efisr_qfe", ⟨"efisr_qfe", Byte.EFISR_B0, 0x01, false⟩),
   ("efisr_qnh", ⟨"efisr_qnh", Byte.EFISR_B0, 0x02, false⟩),
   ("efisr_hpa_dec", ⟨"efisr_hpa_dec", Byte.EFISR_B2, 0x80, false⟩)]

/-- The initial assignment of the mutable `value` fields of `flags`. -/
def initFlagValues (k : String) : Bool :=
  (((flagsList.lookup k).map Flag.value).getD false)

/-- Mutation `flags[k].value = v`. -/
def setFlag (fv : String → Bool) (k : String) (v : Bool) : String → Bool :=
  fun k' => if k' = k then v else fv k'

/-- The per-byte flag composition loop of `winwing_fcu_set_lcd`
    (winwing_fcu.py:315-317): `bl[flag.byte] |= flag.mask * flag.value`. -/
def composeFlags (fv : String → Bool) (b : Byte) : Nat :=
  flagsList.foldl
    (fun acc kf =>
      if kf.2.byte = b then acc ||| kf.2.mask * (if fv kf.1 then 1 else 0)
      else acc)
    0

/-- The main-panel content frame (winwing_fcu.py:320): 25 header bytes, the
    four display groups OR-combined with their flag slots, and 22 trailing
    bytes (the literal has a lone `0` followed by 21 `0x0`). -/
def mainFrameData (s h a v : List Nat) (bl : Byte → Nat) : List Nat :=
  [0xf0, 0x0, 1, 0x31, 0x10, 0xbb, 0x0, 0x0, 0x2, 0x1, 0x0, 0x0, 0xff, 0xff,
   0x2, 0x0, 0x0, 0x20, 0x0, 0x0, 0x0, 0x0, 0x0, 0x0, 0x0,
   s.getD 2 0, s.getD 1 0 ||| bl Byte.S1, s.getD 0 0,
   h.getD 3 0 ||| bl Byte.H3, h.getD 2 0, h.getD 1 0,
   h.getD 0 0 ||| bl Byte.H0,
   a.getD 5 0 ||| bl Byte.A5, a.getD 4 0 ||| bl Byte.A4,
   a.getD 3 0 ||| bl Byte.A3, a.getD 2 0 ||| bl Byte.A2,
   a.getD 1 0 ||| bl Byte.A1,
   a.getD 0 0 ||| v.getD 4 0 ||| bl Byte.A0,
   v.getD 3 0 ||| bl Byte.V3, v.getD 2 0 ||| bl Byte.V2,
   v.getD 1 0 ||| bl Byte.V1, v.getD 0 0 ||| bl Byte.V0, 0] ++
  List.replicate 21 0

/-- The main-panel commit frame (winwing_fcu.py:328). -/
def commitFrameData : List Nat :=
  [0xf0, 0x0, 1, 0x11, 0x10, 0xbb, 0x0, 0x0, 0x3, 0x1, 0x0, 0x0, 0xff, 0xff,
   0x2, 0x0, 0x0] ++ List.replicate 47 0

/-- Function `winwing_fcu_set_lcd` (winwing_fcu.py:308).  `ok1`/`ok2` are the
    outcome oracles of the two `ep.write` calls (content frame, commit
    frame).  Returns the two frames handed to `ep.write` together with the
    final value of the global `usb_retry`; `Option.none` models the
    `KeyError` escaping from the encoders *before* any write happens. -/
def winwing_fcu_set_lcd (usb_retry0 ok1 ok2 : Bool) (speed heading alt vs : PyVal)
    (fv : String → Bool) : Option (List (List Nat) × Bool) := do
  let s ← data_from_string 3 (string_fix_length speed 3)
  let h ← data_from_string_swapped 3 (string_fix_length heading 3)
  let a ← data_from_string_swapped 5 (string_fix_length alt 5)
  let v ← data_from_string_swapped 4 (string_fix_length vs 4)
  let bl := composeFlags fv
  let data1 := mainFrameData s h a v bl
  -- first try/except: on write failure `usb_retry = True`, success keeps it
  let _retry1 := if ok1 then usb_retry0 else true
  let data2 := commitFrameData
  -- second try/except: success clears `usb_retry`, failure sets it
  let retry2 := if ok2 then false else true
  pure ([data1, data2], retry2)

/-- Constant `BUTTONS_CNT` (winwing_fcu.py:27). -/
def BUTTONS_CNT : Nat := 32 + 32 + 32

/-- Device configuration: this embedding covers the FCU-only configuration
    (`device_config = DEVICEMASK.FCU`). -/
def deviceConfigEfisr : Bool := false

/-- Device configuration: EFIS-L absent. -/
def deviceConfigEfisl : Bool := false

/-- Enum `DREF_TYPE` (winwing_fcu.py:82). -/
inductive DREF_TYPE where
  | DATA | CMD | NONE
deriving DecidableEq

/-- Enum `BUTTON` (winwing_fcu.py:37).  Note that in the Python `Enum`,
    `NONE = 5` is a *value alias* of `SEND_3 = 5`, so `BUTTON.NONE` is the
    very same member as `BUTTON.SEND_3`; it is therefore not a separate
    constructor here. -/
inductive BUTTON where
  | SWITCH | TOGGLE | SEND_0 | SEND_1 | SEND_2 | SEND_3 | SEND_4 | SEND_5
deriving DecidableEq

/-- Alias `BUTTON.NONE` is the Python Enum alias for `BUTTON.SEND_3` (both `= 5`). -/
def BUTTON.NONE : BUTTON := BUTTON.SEND_3

/-- LED identifier values from the `Leds` enum (winwing_fcu.py:49),
    restricted to the members the FCU button table uses. -/
def Leds.BACKLIGHT : Nat := 0
def Leds.SCREEN_BACKLIGHT : Nat := 1
def Leds.LOC_GREEN : Nat := 3
def Leds.AP1_GREEN : Nat := 5
def Leds.AP2_GREEN : Nat := 7
def Leds.ATHR_GREEN : Nat := 9
def Leds.EXPED_GREEN : Nat := 11
def Leds.APPR_GREEN : Nat := 13
def Leds.FLAG_GREEN : Nat := 17
def Leds.EXPED_YELLOW : Nat := 30
def Leds.EFISR_BACKLIGHT : Nat := 100
def Leds.EFISR_SCREEN_BACKLIGHT : Nat := 101
def Leds.EFISR_FLAG_GREEN : Nat := 102

/-- The `led` argument of a `Button`: either a single `Leds` member or a
    list of them (`winwing_fcu_set_leds` distinguishes the two). -/
inductive Led where
  | single (v : Nat)
  | multi (vs : List Nat)
deriving DecidableEq

/-- The `Button` class (winwing_fcu.py:88). -/
structure Button where
  id : Option Nat
  label : String
  dataref : String
  dreftype : DREF_TYPE
  type : BUTTON
  led : Option Led
deriving DecidableEq

/-- Table `create_button_list_fcu` (winwing_fcu.py:398) for the FCU-only device
    configuration (the EFIS-R / EFIS-L blocks are not appended). -/
def buttonlistFcu : List Button :=
  [⟨some 0, "MACH", "toliss_airbus/ias_mach_button_push", DREF_TYPE.CMD, BUTTON.TOGGLE, Option.none⟩,
   ⟨some 1, "LOC", "AirbusFBW/LOCbutton", DREF_TYPE.CMD, BUTTON.TOGGLE, Option.none⟩,
   ⟨some 2, "TRK", "toliss_airbus/hdgtrk_button_push", DREF_TYPE.CMD, BUTTON.TOGGLE, Option.none⟩,
   ⟨some 3, "AP1", "AirbusFBW/AP1Engage", DREF_TYPE.DATA, BUTTON.TOGGLE, some (Led.single Leds.AP1_GREEN)⟩,
   ⟨some 4, "AP2", "AirbusFBW/AP2Engage", DREF_TYPE.DATA, BUTTON.TOGGLE, some (Led.single Leds.AP2_GREEN)⟩,
   ⟨some 5, "A/THR", "AirbusFBW/ATHRbutton", DREF_TYPE.CMD, BUTTON.TOGGLE, Option.none⟩,
   ⟨some 6, "EXPED", "AirbusFBW/EXPEDbutton", DREF_TYPE.CMD, BUTTON.TOGGLE, Option.none⟩,
   ⟨some 7, "METRIC", "toliss_airbus/metric_alt_button_push", DREF_TYPE.CMD, BUTTON.TOGGLE, Option.none⟩,
   ⟨some 8, "APPR", "AirbusFBW/APPRbutton", DREF_TYPE.CMD, BUTTON.TOGGLE, Option.none⟩,
   ⟨some 9, "SPD DEC", "sim/autopilot/airspeed_down", DREF_TYPE.CMD, BUTTON.TOGGLE, Option.none⟩,
   ⟨some 10, "SPD INC", "sim/autopilot/airspeed_up", DREF_TYPE.CMD, BUTTON.TOGGLE, Option.none⟩,
   ⟨some 11, "SPD PUSH", "AirbusFBW/PushSPDSel", DREF_TYPE.CMD, BUTTON.TOGGLE, Option.none⟩,
   ⟨some 12, "SPD PULL", "AirbusFBW/PullSPDSel", DREF_TYPE.CMD, BUTTON.TOGGLE, Option.none⟩,
   ⟨some 13, "HDG DEC", "sim/autopilot/heading_down", DREF_TYPE.CMD, BUTTON.TOGGLE, Option.none⟩,
   ⟨some 14, "HDG INC", "sim/autopilot/heading_up", DREF_TYPE.CMD, BUTTON.TOGGLE, Option.none⟩,
   ⟨some 15, "HDG PUSH", "AirbusFBW/PushHDGSel", DREF_TYPE.CMD, BUTTON.TOGGLE, Option.none⟩,
   ⟨some 16, "HDG PULL", "AirbusFBW/PullHDGSel", DREF_TYPE.CMD, BUTTON.TOGGLE, Option.none⟩,
   ⟨some 17, "ALT DEC", "sim/autopilot/altitude_down", DREF_TYPE.CMD, BUTTON.TOGGLE, Option.none⟩,
   ⟨some 18, "ALT INC", "sim/autopilot/altitude_up", DREF_TYPE.CMD, BUTTON.TOGGLE, Option.none⟩,
   ⟨some 19, "ALT PUSH", "AirbusFBW/PushAltitude", DREF_TYPE.CMD, BUTTON.TOGGLE, Option.none⟩,
   ⟨some 20, "ALT PULL", "AirbusFBW/PullAltitude", DREF_TYPE.CMD, BUTTON.TOGGLE, Option.none⟩,
   ⟨some 21, "VS DEC", "sim/autopilot/vertical_speed_down", DREF_TYPE.CMD, BUTTON.TOGGLE, Option.none⟩,
   ⟨some 22, "VS INC", "sim/autopilot/vertical_speed_up", DREF_TYPE.CMD, BUTTON.TOGGLE, Option.none⟩,
   ⟨some 23, "VS PUSH", "AirbusFBW/PushVSSel", DREF_TYPE.CMD, BUTTON.TOGGLE, Option.none⟩,
   ⟨some 24, "VS PULL", "AirbusFBW/PullVSSel", DREF_TYPE.CMD, BUTTON.TOGGLE, Option.none⟩,
   ⟨some 25, "ALT 100", "AirbusFBW/ALT100_1000", DREF_TYPE.DATA, BUTTON.SEND_0, Option.none⟩,
   ⟨some 26, "ALT 1000", "AirbusFBW/ALT100_1000", DREF_TYPE.DATA, BUTTON.SEND_1, Option.none⟩,
   ⟨some 27, "BRIGHT", "AirbusFBW/SupplLightLevelRehostats[0]", DREF_TYPE.DATA, BUTTON.NONE,
     some (Led.multi [Leds.BACKLIGHT, Leds.EFISR_BACKLIGHT, Leds.FLAG_GREEN, Leds.EFISR_FLAG_GREEN])⟩,
   ⟨some 27, "BRIGHT_LCD", "AirbusFBW/SupplLightLevelRehostats[1]", DREF_TYPE.DATA, BUTTON.NONE,
     some (Led.multi [Leds.SCREEN_BACKLIGHT, Leds.EFISR_SCREEN_BACKLIGHT])⟩,
   ⟨some 28, "APPR_LED", "AirbusFBW/APPRilluminated", DREF_TYPE.DATA, BUTTON.NONE, some (Led.single Leds.APPR_GREEN)⟩,
   ⟨some 29, "ATHR_LED", "AirbusFBW/ATHRmode", DREF_TYPE.DATA, BUTTON.NONE, some (Led.single Leds.ATHR_GREEN)⟩,
   ⟨some 30, "LOC_LED", "AirbusFBW/LOCilluminated", DREF_TYPE.DATA, BUTTON.NONE, some (Led.single Leds.LOC_GREEN)⟩]

/-- An observable action dispatched to the simulator (`xp.WriteDataRef` /
    `xp.SendCommand`); boolean writes are recorded as 0/1. -/
inductive Action where
  | writeDataRef (dataref : String) (value : Int)
  | sendCommand (dataref : String)
deriving DecidableEq

/-- The press branch of `fcu_button_event` (winwing_fcu.py:541-582) for one
    button: the actions emitted when `buttons_press_event[b.id]` was set. -/
def fcuPressActions (cache : String → Option Int) (b : Button) : List Action :=
  match b.type with
  | BUTTON.TOGGLE =>
    -- `val = datacache[b.dataref]`; writes `not bool(val)`
    match b.dreftype with
    | DREF_TYPE.DATA =>
      [Action.writeDataRef b.dataref (if pyTruthy (cache b.dataref) then 0 else 1)]
    | DREF_TYPE.CMD => [Action.sendCommand b.dataref]
    | DREF_TYPE.NONE => []
  | BUTTON.SWITCH =>
    match b.dreftype with
    | DREF_TYPE.DATA => [Action.writeDataRef b.dataref 1]
    | DREF_TYPE.CMD => [Action.sendCommand b.dataref]
    | DREF_TYPE.NONE => []
  | BUTTON.SEND_0 =>
    match b.dreftype with
    | DREF_TYPE.DATA => [Action.writeDataRef b.dataref 0]
    | _ => []
  | BUTTON.SEND_1 =>
    match b.dreftype with
    | DREF_TYPE.DATA => [Action.writeDataRef b.dataref 1]
    | _ => []
  | BUTTON.SEND_2 =>
    match b.dreftype with
    | DREF_TYPE.DATA => [Action.writeDataRef b.dataref 2]
    | _ => []
  | BUTTON.SEND_3 =>
    match b.dreftype with
    | DREF_TYPE.DATA => [Action.writeDataRef b.dataref 3]
    | _ => []
  | BUTTON.SEND_4 =>
    match b.dreftype with
    | DREF_TYPE.DATA => [Action.writeDataRef b.dataref 4]
    | _ => []
  | BUTTON.SEND_5 =>
    match b.dreftype with
    | DREF_TYPE.DATA => [Action.writeDataRef b.dataref 5]
    | _ => []

/-- The release branch of `fcu_button_event` (winwing_fcu.py:583-587): only
    a `SWITCH` button acts on release (it writes 0 with no dreftype check). -/
def fcuReleaseActions (b : Button) : List Action :=
  match b.type with
  | BUTTON.SWITCH => [Action.writeDataRef b.dataref 0]
  | _ => []

/-- Python `any()` over an event array of 0/1 ints. -/
def anyPending (l : List Nat) : Bool := l.any (· ≠ 0)

/-- The early-exit condition of `fcu_button_event` (winwing_fcu.py:534):
    both pending vectors empty. -/
def pendingEmpty (press release : List Nat) : Bool :=
  !anyPending press && !anyPending release

/-- Dispatcher `fcu_button_event` (winwing_fcu.py:531): walks the button table in
    order; breaks as soon as both pending vectors are empty; skips entries
    without a bit index; clears `press[b.id]` / `release[b.id]` and emits
    the corresponding actions. -/
def fcu_button_event (cache : String → Option Int) :
    List Button → List Nat → List Nat → List Nat × List Nat × List Action
  | [], press, release => (press, release, [])
  | b :: rest, press, release =>
    if pendingEmpty press release then (press, release, [])
    else
      match b.id with
      | Option.none => fcu_button_event cache rest press release
      | some i =>
        let press1 := if press.getD i 0 ≠ 0 then press.set i 0 else press
        let acts1 := if press.getD i 0 ≠ 0 then fcuPressActions cache b else []
        let release1 := if release.getD i 0 ≠ 0 then release.set i 0 else release
        let acts2 := if release.getD i 0 ≠ 0 then fcuReleaseActions b else []
        let res := fcu_button_event cache rest press1 release1
        (res.1, res.2.1, acts1 ++ acts2 ++ res.2.2)

/-- Function `xor_bitmask` (winwing_fcu.py:527). -/
def xor_bitmask (a b bitmask : Nat) : Bool :=
  (a &&& bitmask) != (b &&& bitmask)

/-- The button-word assembly of `fcu_create_events` (winwing_fcu.py:610-614)
    for the FCU-only configuration. -/
def decodeFcuButtons (data_in : List Nat) : Nat :=
  let buttons := data_in.getD 1 0 ||| (data_in.getD 2 0 <<< 8) |||
    (data_in.getD 3 0 <<< 16) ||| (data_in.getD 4 0 <<< 24)
  let buttons := if deviceConfigEfisr then
      buttons ||| (data_in.getD 9 0 <<< 32) ||| (data_in.getD 10 0 <<< 40) |||
        (data_in.getD 11 0 <<< 48) ||| (data_in.getD 12 0 <<< 56)
    else buttons
  if deviceConfigEfisl then
    buttons ||| (data_in.getD 5 0 <<< 64) ||| (data_in.getD 6 0 <<< 72) |||
      (data_in.getD 7 0 <<< 80) ||| (data_in.getD 8 0 <<< 88)
  else buttons

/-- The loop body of the edge scan (winwing_fcu.py:615-622) at bit `i`:
    the pending-event entry generated for that bit, if any. -/
def edgeAt (buttons buttons_last : Nat) (i : Nat) : Option (Nat × Bool) :=
  if xor_bitmask buttons buttons_last (1 <<< i) then
    some (i, buttons &&& (1 <<< i) != 0)
  else Option.none

/-- All edges generated by one poll of `fcu_create_events`, in bit order:
    `(i, true)` is a press edge, `(i, false)` a release edge. -/
def edgesOf (buttons buttons_last : Nat) : List (Nat × Bool) :=
  (List.range BUTTONS_CNT).filterMap (edgeAt buttons buttons_last)

/-- The mutable state of the poll loop in `fcu_create_events`:
    the last accepted snapshot and the two pending-event arrays. -/
structure PollState where
  buttons_last : Nat
  press : List Nat
  release : List Nat
deriving DecidableEq

/-- One iteration of the poll loop of `fcu_create_events`
    (winwing_fcu.py:602-624), from the USB read onward:
    `Option.none` models a read that raised (handled by `continue`), a
    payload of length ≠ 41 is discarded by `continue`, otherwise each
    changed bit sets its pending event and `fcu_button_event` is dispatched
    inline, and finally `buttons_last` is replaced. -/
def fcuPollCycle (cache : String → Option Int) (st : PollState)
    (data_in : Option (List Nat)) : PollState × List Action :=
  match data_in with
  | Option.none => (st, [])
  | some data =>
    if data.length ≠ 41 then (st, [])
    else
      let buttons := decodeFcuButtons data
      let step := (List.range BUTTONS_CNT).foldl
        (fun (acc : List Nat × List Nat × List Action) i =>
          let (press, release, acts) := acc
          match edgeAt buttons st.buttons_last i with
          | Option.none => acc
          | some (j, isPress) =>
            let (press, release) :=
              if isPress then (press.set j 1, release) else (press, release.set j 1)
            let (press', release', acts') :=
              fcu_button_event cache buttonlistFcu press release
            (press', release', acts ++ acts'))
        (st.press, st.release, [])
      (⟨buttons, step.1, step.2.1⟩, step.2.2)

/-- Function `winwing_fcu_set_led` (winwing_fcu.py:233), recorded at the action
    level as an (LED value, brightness) pair; the conditional mirrors
    winwing_fcu.py:246 (write only for FCU LEDs, or EFIS-R when present). -/
def winwing_fcu_set_led (led : Nat) (brightness : Int) : List (Nat × Int) :=
  if led < 200 || deviceConfigEfisr then [(led, brightness)] else []

/-- Function `winwing_fcu_set_leds` (winwing_fcu.py:226): a list argument fans out
    to one `winwing_fcu_set_led` per member. -/
def winwing_fcu_set_leds (led : Led) (brightness : Int) : List (Nat × Int) :=
  match led with
  | Led.single v => winwing_fcu_set_led v brightness
  | Led.multi vs => vs.foldl (fun acc v => acc ++ winwing_fcu_set_led v brightness) []

/-- Function `set_button_led_lcd` (winwing_fcu.py:627): finds the first button bound
    to the dataref; a `None` led breaks immediately; otherwise the value is
    clamped to 255 and the LED writes are emitted.  Only when `b.led` *is*
    the single member `Leds.BACKLIGHT` is the EXPED backlight also written
    and the global `led_brightness` updated (a list containing BACKLIGHT
    does not compare equal, as in the Python `==`).  Returns the LED writes
    and the new `led_brightness`. -/
def set_button_led_lcd :
    List Button → Int → String → Int → List (Nat × Int) × Int
  | [], lb, _, _ => ([], lb)
  | b :: rest, lb, dataref, v =>
    if b.dataref = dataref then
      match b.led with
      | Option.none => ([], lb)
      | some led =>
        let v := if v ≥ 255 then 255 else v
        let ws := winwing_fcu_set_leds led v
        if led = Led.single Leds.BACKLIGHT then
          (ws ++ winwing_fcu_set_led Leds.EXPED_YELLOW v, v)
        else (ws, lb)
    else set_button_led_lcd rest lb dataref v

/-- The global mutable state touched by `set_datacache`. -/
structure FcuState where
  datacache : String → Option Int
  flagValues : String → Bool
  usb_retry : Bool
  exped_led_state : Bool
  led_brightness : Int

/-- Mutation `datacache[k] = n`. -/
def setCacheKey (c : String → Option Int) (k : String) (n : Int) :
    String → Option Int :=
  fun k' => if k' = k then some n else c k'

/-- The value-specific transform chain at the top of the `set_datacache`
    loop body (winwing_fcu.py:652-668), applied to `values[v]` before
    caching.  `sm` is the `spd_mach` cache read of this iteration. -/
def projTransform (sm : Option Int) (v : String) (q0 : PyFloat) : PyFloat :=
  let q := if v = "AirbusFBW/SupplLightLevelRehostats[0]" ∧ q0.le 1 then
      PyFloat.ofInt (pyTrunc (q0 * 255)) else q0
  let q := if v = "AirbusFBW/SupplLightLevelRehostats[1]" ∧ q.le 1 then
      PyFloat.ofInt (pyTrunc (q * 235 + 20)) else q
  let q := if v = "sim/cockpit2/electrical/instrument_brightness_ratio_manual[10]" ∧ q.le 1 then
      PyFloat.ofInt (pyTrunc (q * 255)) else q
  let q := if v = "sim/cockpit2/electrical/instrument_brightness_ratio_manual[14]" ∧ q.le 1 then
      PyFloat.ofInt (pyTrunc (q * 255)) else q
  let q := if pyTruthy sm ∧ v = "sim/cockpit2/autopilot/airspeed_dial_kts_mach" ∧ q.lt 1 then
      (q + 0.005) * 100 else q
  if deviceConfigEfisr ∧ v = "sim/cockpit2/gauges/actuators/barometer_setting_in_hg_copilot" ∧ q.lt 100 then
    (q + 0.005) * 100 else q

/-- The accumulator threaded through the `for v in values` loop of
    `set_datacache`: the cache, the `new` dirty flag, the LED writes
    emitted so far, the current `led_brightness`, and the last value taken
    by the loop-local variable `spd_mach` (`Option.none` = the loop never
    ran, so the name is unbound and its later use raises `NameError`). -/
structure ProjAcc where
  cache : String → Option Int
  isNew : Bool
  ledWrites : List (Nat × Int)
  led_brightness : Int
  spd_mach_seen : Option (Option Int)

/-- One iteration of the `for v in values` loop of `set_datacache`
    (winwing_fcu.py:650-673). -/
def projStep (acc : ProjAcc) (kv : String × PyFloat) : ProjAcc :=
  let (v, raw) := kv
  let sm := acc.cache "sim/cockpit/autopilot/airspeed_is_mach"
  let q := projTransform sm v raw
  let ni := pyTrunc q
  if acc.cache v ≠ some ni then
    let cache' := setCacheKey acc.cache v ni
    let (ws, lb') := set_button_led_lcd buttonlistFcu acc.led_brightness v ni
    ⟨cache', true, acc.ledWrites ++ ws, lb', some sm⟩
  else { acc with spd_mach_seen := some sm }

/-- Projector `set_datacache` (winwing_fcu.py:645) for the FCU-only configuration
    (the EFIS-R baro block is skipped).  `ok1`/`ok2` are the transport
    outcomes of the two main-frame writes.  The result carries the new
    global state, the main-panel frames written this pass (`Option.none` if
    the dirty/retry gate did not fire), and the LED writes.
    `Except.error ()` models an uncaught exception: the `TypeError` from
    `vs < 0` when `vertical_velocity` was never received, the `NameError`
    on `spd_mach` when the batch was empty, or the `KeyError` escaping the
    glyph encoders. -/
def set_datacache (st : FcuState) (values : List (String × PyFloat)) (ok1 ok2 : Bool) :
    Except Unit (FcuState × Option (List (List Nat)) × List (Nat × Int)) :=
  let acc := values.foldl projStep ⟨st.datacache, false, [], st.led_brightness, Option.none⟩
  let cache := acc.cache
  if acc.isNew || st.usb_retry then
    -- winwing_fcu.py:675-679: read the five display-driving cache entries
    let speed := cache "sim/cockpit2/autopilot/airspeed_dial_kts_mach"
    let heading := cache "sim/cockpit/autopilot/heading_mag"
    let alt := cache "sim/cockpit/autopilot/altitude"
    let hdg := cache "AirbusFBW/HDGTRKmode"
    match cache "sim/cockpit/autopilot/vertical_velocity" with
    | Option.none => Except.error () -- `if vs < 0` on None: TypeError
    | some vs0 =>
      let (vsAbs, fv) :=
        if vs0 < 0 then (|vs0|, setFlag st.flagValues "vs_vert" false)
        else (vs0, setFlag st.flagValues "vs_vert" true)
      let fv := setFlag fv "fpa_comma" false
      let speedVal := if pyTruthy (cache "AirbusFBW/SPDdashed") then PyVal.str "---"
        else optToPy speed
      let headingVal := if pyTruthy (cache "AirbusFBW/HDGdashed") then PyVal.str "---"
        else optToPy heading
      let altVal := optToPy alt
      let (vsVal, fv) :=
        if pyTruthy (cache "AirbusFBW/VSdashed") then
          (PyVal.str "----", setFlag fv "vs_vert" false)
        else if !pyTruthy hdg then
          -- small 0 for hundred-feet chars in v/s mode
          (PyVal.str (strLjust (string_fix_length (PyVal.int (pyTrunc (PyFloat.ofInt vsAbs / 100))) 2) 4 '#'), fv)
        else
          (PyVal.str (strLjust (string_fix_length (PyVal.int (pyTrunc (PyFloat.ofInt vsAbs / 100))) 2) 4 ' '),
           setFlag fv "fpa_comma" true)
      -- winwing_fcu.py:703-717: recompute the dependent flags; line 706
      -- uses the loop-local `spd_mach` (NameError when the batch was empty)
      match acc.spd_mach_seen with
      | Option.none => Except.error ()
      | some spd_mach =>
        let fv := setFlag fv "spd_managed" (pyTruthy (cache "AirbusFBW/SPDmanaged"))
        let fv := setFlag fv "hdg_managed" (pyTruthy (cache "AirbusFBW/HDGmanaged"))
        let fv := setFlag fv "alt_managed" (pyTruthy (cache "AirbusFBW/ALTmanaged"))
        let fv := setFlag fv "spd" (!pyTruthy spd_mach)
        let fv := setFlag fv "mach" (pyTruthy spd_mach)
        let fv := setFlag fv "mach_comma" (pyTruthy spd_mach)
        let fv := setFlag fv "hdg" (!pyTruthy hdg)
        let fv := setFlag fv "trk" (pyTruthy hdg)
        let fv := setFlag fv "fvs" (!pyTruthy hdg)
        let fv := setFlag fv "vshdg" (!pyTruthy hdg)
        let fv := setFlag fv "vs" (!pyTruthy hdg)
        let fv := setFlag fv "ftrk" (pyTruthy hdg)
        let fv := setFlag fv "ffpa" (pyTruthy hdg)
        let fv := setFlag fv "ffpa2" (pyTruthy hdg)
        -- winwing_fcu.py:719-726: EXPED LED (its cache read is guarded by
        -- try/except, `None >= 112` falls to False)
        let desired := match cache "AirbusFBW/APVerticalMode" with
          | some n => decide (n ≥ 112)
          | Option.none => false
        let (exped', expedW) :=
          if desired ≠ st.exped_led_state then
            (desired,
             winwing_fcu_set_led Leds.EXPED_GREEN
               (acc.led_brightness * (if desired then 1 else 0)))
          else (st.exped_led_state, [])
        match winwing_fcu_set_lcd st.usb_retry ok1 ok2 speedVal headingVal altVal vsVal fv with
        | Option.none => Except.error () -- KeyError from the glyph table
        | some (frames, retry') =>
          Except.ok
            (⟨cache, fv, retry', exped', acc.led_brightness⟩,
             some frames, acc.ledWrites ++ expedW)
  else
    Except.ok
      ({ st with datacache := cache, led_brightness := acc.led_brightness },
       Option.none, acc.ledWrites)

instance {e a : Type} [DecidableEq e] [DecidableEq a] : DecidableEq (Except e a) := fun x y =>
  match x, y with
  | .error u, .error v =>
    if h : u = v then isTrue (h ▸ rfl) else isFalse (fun hc => h (by cases hc; rfl))
  | .ok u, .ok v =>
    if h : u = v then isTrue (h ▸ rfl) else isFalse (fun hc => h (by cases hc; rfl))
  | .error _, .ok _ => isFalse (fun hc => by cases hc)
  | .ok _, .error _ => isFalse (fun hc => by cases hc)

/-- A cache as `RequestDataRefs` leaves it once the listed keys have
    received telemetry: listed keys hold their value, everything else is
    still `None`. -/
def cacheOfList (l : List (String × Int)) : String → Option Int :=
  fun k => l.lookup k

/-- Scenario cache for the end-to-end batch: all dashed indicators and
    mode/managed indicators received as 0, the four display values and the
    lateral mode not yet received. -/
def c1Cache : String → Option Int :=
  cacheOfList
    [("AirbusFBW/SPDdashed", 0), ("AirbusFBW/HDGdashed", 0), ("AirbusFBW/VSdashed", 0),
     ("sim/cockpit/autopilot/airspeed_is_mach", 0), ("AirbusFBW/SPDmanaged", 0),
     ("AirbusFBW/HDGmanaged", 0), ("AirbusFBW/ALTmanaged", 0),
     ("AirbusFBW/APVerticalMode", 0)]

/-- Initial global state for the end-to-end batch (flag defaults,
    `usb_retry = False`, `exped_led_state = False`, `led_brightness = 180`). -/
def c1State : FcuState := ⟨c1Cache, initFlagValues, false, false, 180⟩

/-- The end-to-end telemetry batch
    `{speed: 250, heading: 180, altitude: 35000, vertical_velocity: -800,
      HDGTRKmode: 0}`. -/
def c1Batch : List (String × PyFloat) :=
  [("sim/cockpit2/autopilot/airspeed_dial_kts_mach", 250),
   ("sim/cockpit/autopilot/heading_mag", 180),
   ("sim/cockpit/autopilot/altitude", 35000),
   ("sim/cockpit/autopilot/vertical_velocity", PyFloat.ofInt (-800)),
   ("AirbusFBW/HDGTRKmode", 0)]

/-- The flag assignment expected after the end-to-end batch: speed (not
    mach) and heading (not track) selectors on, vertical-speed family in
    heading mode, the always-on decorations, and in particular `vs_vert`
    off (descending). -/
def c1Flags : String → Bool := fun k =>
  k ∈ ["spd", "hdg", "fvs", "vshdg", "vs",
       "lat", "alt", "vs_horz", "lvl", "lvl_left", "lvl_right"]

/-- Scenario cache in which `vertical_velocity` has never been received. -/
def c2Cache : String → Option Int :=
  cacheOfList
    [("AirbusFBW/SPDdashed", 0), ("AirbusFBW/HDGdashed", 0), ("AirbusFBW/VSdashed", 0),
     ("sim/cockpit/autopilot/airspeed_is_mach", 0)]

/-- Initial global state for the missing-key scenario. -/
def c2State : FcuState := ⟨c2Cache, initFlagValues, false, false, 180⟩

/-- Projection of a `set_datacache` result to the resulting state,
    with a fallback for the error case. -/
def exceptStateOr
    (e : Except Unit (FcuState × Option (List (List Nat)) × List (Nat × Int)))
    (fallback : FcuState) : FcuState :=
  match e with
  | Except.ok o => o.1
  | Except.error _ => fallback

/-- A datacache with every key registered but nothing received yet. -/
def c7Cache : String → Option Int := fun _ => Option.none

/-- Initial poll state: empty snapshot, no pending events. -/
def c7S0 : PollState := ⟨0, List.replicate BUTTONS_CNT 0, List.replicate BUTTONS_CNT 0⟩

/-- A valid 41-byte button read with bit 0 of the FCU section set. -/
def c7Read : List Nat := [0, 1] ++ List.replicate 39 0

/-- The poll state after accepting `c7Read`: snapshot 1, pending events
    dispatched and cleared. -/
def c7S1 : PollState := ⟨1, List.replicate BUTTONS_CNT 0, List.replicate BUTTONS_CNT 0⟩

/-- The AP1 table entry: a `toggle` binding on the boolean value-key
    `AirbusFBW/AP1Engage`. -/
def c8Button : Button :=
  ⟨some 3, "AP1", "AirbusFBW/AP1Engage", DREF_TYPE.DATA, BUTTON.TOGGLE,
   some (Led.single Leds.AP1_GREEN)⟩

/-- A cache in which every value-key is currently 0. -/
def c8CacheZero : String → Option Int := fun _ => some 0

/-- Pending-press vector with only bit 31 set. -/
def c10Press : List Nat := (List.replicate BUTTONS_CNT 0).set 31 1

/-- Empty pending-release vector. -/
def c10Release : List Nat := List.replicate BUTTONS_CNT 0

/-! ## Theorems -/

set_option maxRecDepth 4096

/-- C1: processing the telemetry batch `{speed: 250, heading: 180,
    altitude: 35000, vertical_velocity: -800, HDGTRKmode: 0}` with all
    dashed indicators clear produces the main-panel content frame whose
    speed group is the segment encoding of `"250"`, heading group the
    encoding of `"180"`, altitude group the encoding of `"35000"`, and
    vertical-speed group the encoding of `"08##"` — the hundreds-of-feet
    value `"08"` left-justified and padded with `'#'` (heading mode) — all
    OR-combined with the expected flag slots, followed by the commit frame;
    and the `vs_vert` direction flag is cleared because the value is
    negative (descending). -/
theorem c1_end_to_end_main_frame :
    (strLjust (string_fix_length (PyVal.int 8) 2) 4 '#') = "08##"
  ∧ (set_datacache c1State c1Batch true true).map
        (fun o => (o.2.1, o.1.flagValues "vs_vert"))
      = Except.ok
          (some [mainFrameData
                   ((data_from_string 3 "250").getD [])
                   ((data_from_string_swapped 3 "180").getD [])
                   ((data_from_string_swapped 5 "35000").getD [])
                   ((data_from_string_swapped 4 "08##").getD [])
                   (composeFlags c1Flags),
                 commitFrameData],
           false) := by
  constructor
  · decide
  · decide

/-- C2: the claim that a never-received key is skipped without crashing is
    contradicted by the code: with `vertical_velocity` still unknown, a
    batch that dirties the cache reaches `if vs < 0` and raises `TypeError`
    (modelled as `Except.error ()`). -/
theorem c2_missing_vs_crash :
    (set_datacache c2State [("sim/cockpit/autopilot/heading_mag", 180)] true true).isOk
      = false := by
  decide

/-- C3 (counterexample): `data_from_string` applied directly to `"5"` and
    to `"005"` with width 3 yields different byte sequences, refuting the
    claimed equality. -/
theorem c3_encode_pad_counterexample :
    data_from_string 3 "5" ≠ data_from_string 3 "005" := by
  decide

/-- C3 (amended): `data_from_string` places character `i` at index
    `width-1-i`, so a short string fills the high indices and leaves
    trailing zero bytes; the zero-padding equality only holds after
    `string_fix_length` right-justifies the text with `'0'`, which is how
    every display call site uses it. -/
theorem c3_encode_pad_amended :
    data_from_string 3 (string_fix_length (PyVal.str "5") 3) = data_from_string 3 "005"
  ∧ data_from_string 3 "5" = some [0, 0, 0xbc]
  ∧ data_from_string 3 "005" = some [0xbc, 0xfa, 0xfa] := by
  refine ⟨by decide, by decide, by decide⟩

/-- C4 (counterexample): a failed *content*-frame write followed by a
    successful commit-frame write leaves `usb_retry` cleared at the end of
    `winwing_fcu_set_lcd`, refuting both "if a main-panel frame write
    fails, the RetryFlag is set" and "cleared exactly on a successful
    write". -/
theorem c4_retry_counterexample :
    (winwing_fcu_set_lcd false false true (PyVal.int 250) (PyVal.int 180)
        (PyVal.int 35000) (PyVal.str "08##") initFlagValues).map Prod.snd
      = some false := by
  decide

/-- C4 (amended): the final `usb_retry` after `winwing_fcu_set_lcd` is
    exactly the negation of the commit write's success, independent of the
    content write and the previous flag; and when the commit write of a
    frame fails, the next batch — here the identical batch, leaving the
    cache unchanged — still recomputes the display, resends the identical
    frames, and `usb_retry` clears after that resend's commit succeeds. -/
theorem c4_retry_amended :
    (∀ r0 ok1 ok2 sp hd al vs fv,
        (winwing_fcu_set_lcd r0 ok1 ok2 sp hd al vs fv).map Prod.snd
          = (winwing_fcu_set_lcd r0 ok1 ok2 sp hd al vs fv).map (fun _ => !ok2))
  ∧ (set_datacache c1State c1Batch true false).map (fun o => o.1.usb_retry)
      = Except.ok true
  ∧ (set_datacache c1State c1Batch true false).map (fun o => o.2.1.isSome)
      = Except.ok true
  ∧ (set_datacache (exceptStateOr (set_datacache c1State c1Batch true false) c1State)
        c1Batch true true).map (fun o => o.2.1)
      = (set_datacache c1State c1Batch true false).map (fun o => o.2.1)
  ∧ (set_datacache (exceptStateOr (set_datacache c1State c1Batch true false) c1State)
        c1Batch true true).map (fun o => o.1.usb_retry)
      = Except.ok false := by
  refine ⟨?_, by decide, by decide, by decide, by decide⟩
  intro r0 ok1 ok2 sp hd al vs fv
  unfold winwing_fcu_set_lcd
  cases data_from_string 3 (string_fix_length sp 3) <;>
    cases data_from_string_swapped 3 (string_fix_length hd 3) <;>
      cases data_from_string_swapped 5 (string_fix_length al 5) <;>
        cases data_from_string_swapped 4 (string_fix_length vs 4) <;>
          cases ok2 <;> rfl

/-- C5 (counterexample): a display string containing the unmapped
    character `'.'` *beyond* the field width is silently truncated rather
    than rejected: `winwing_fcu_set_lcd` still produces frames for the
    speed string `"250."`. -/
theorem c5_unmapped_counterexample :
    (winwing_fcu_set_lcd false true true (PyVal.str "250.") (PyVal.int 180)
        (PyVal.int 35000) (PyVal.str "08##") initFlagValues).isSome = true := by
  decide

/-- C5 (amended): if one of the first `width` characters of a display
    field's string is outside the glyph table, the encoder raises
    (`Option.none`) and the whole update is rejected before any frame is
    produced, surfacing the condition to the caller; an unmapped character
    past the field width is truncated away and does not cause rejection. -/
theorem c5_unmapped_amended :
    (∀ r0 ok1 ok2 sp hd al vs fv,
        data_from_string 3 (string_fix_length sp 3) = Option.none →
        winwing_fcu_set_lcd r0 ok1 ok2 sp hd al vs fv = Option.none)
  ∧ data_from_string 3 "2.0" = Option.none
  ∧ winwing_fcu_set_lcd false true true (PyVal.str "2.0") (PyVal.int 180)
      (PyVal.int 35000) (PyVal.str "08##") initFlagValues = Option.none := by
  refine ⟨?_, by decide, by decide⟩
  intro r0 ok1 ok2 sp hd al vs fv h
  unfold winwing_fcu_set_lcd
  rw [h]
  rfl

/-- C5 witness: the rejection theorem applied to the concrete speed string
    `"1.5"`, whose second character is unmapped. -/
theorem c5_unmapped_amended_witness :
    winwing_fcu_set_lcd false true true (PyVal.str "1.5") (PyVal.int 0)
      (PyVal.int 0) (PyVal.str "0000") initFlagValues = Option.none :=
  c5_unmapped_amended.1 false true true (PyVal.str "1.5") (PyVal.int 0)
    (PyVal.int 0) (PyVal.str "0000") initFlagValues (by decide)

lemma and_one_shift (n i : Nat) : n &&& (1 <<< i) = (n.testBit i).toNat * 2 ^ i := by
  rw [Nat.shiftLeft_eq, one_mul, Nat.and_two_pow]

lemma and_shift_bne (n i : Nat) : (n &&& (1 <<< i) != 0) = n.testBit i := by
  have hp : 0 < 2 ^ i := Nat.two_pow_pos i
  rw [and_one_shift]
  cases h : n.testBit i <;> simp <;> omega

lemma xor_bitmask_testBit (a b i : Nat) :
    xor_bitmask a b (1 <<< i) = (a.testBit i != b.testBit i) := by
  have hp : 0 < 2 ^ i := Nat.two_pow_pos i
  unfold xor_bitmask
  rw [and_one_shift, and_one_shift]
  cases h1 : a.testBit i <;> cases h2 : b.testBit i <;> simp <;> omega

lemma edgeAt_eq (now prev i : Nat) (x : Bool) :
    (edgeAt now prev i = some (i, x)) ↔ (now.testBit i = x ∧ prev.testBit i = !x) := by
  unfold edgeAt
  simp only [xor_bitmask_testBit, and_shift_bne]
  cases hn : now.testBit i <;> cases hp : prev.testBit i <;> cases x <;> simp

lemma edgeAt_fst {b l m : Nat} {p : Nat × Bool} (h : edgeAt b l m = some p) : p.1 = m := by
  unfold edgeAt at h
  split at h
  · injection h with h2
    subst h2
    rfl
  · exact Option.noConfusion h

lemma count_range_edge (buttons last : Nat) (n i : Nat) (x : Bool) :
    ((List.range n).filterMap (edgeAt buttons last)).count (i, x)
      = if i < n ∧ edgeAt buttons last i = some (i, x) then 1 else 0 := by
  induction n with
  | zero => simp
  | succ m ih =>
    rw [List.range_succ, List.filterMap_append, List.count_append, ih]
    have hsingle : (List.filterMap (edgeAt buttons last) [m]).count (i, x)
        = if edgeAt buttons last m = some (i, x) then 1 else 0 := by
      cases h : edgeAt buttons last m <;>
        simp [List.filterMap, h, List.count_cons, List.count_nil]
    rw [hsingle]
    by_cases him : i = m
    · subst him
      simp [Nat.lt_irrefl, Nat.lt_succ_iff]
    · have hm : edgeAt buttons last m = some (i, x) → False := fun h =>
        him (edgeAt_fst h)
      have hlt : (i < m + 1 ∧ edgeAt buttons last i = some (i, x))
          ↔ (i < m ∧ edgeAt buttons last i = some (i, x)) := by
        constructor
        · rintro ⟨h1, h2⟩
          exact ⟨Nat.lt_of_le_of_ne (Nat.lt_succ_iff.mp h1) him, h2⟩
        · rintro ⟨h1, h2⟩
          exact ⟨Nat.lt_succ_of_lt h1, h2⟩
      rw [if_neg (fun hc => hm hc), if_congr hlt rfl rfl]
      simp



lemma mem_of_lookup {α β : Type} [BEq α] [LawfulBEq α] {l : List (α × β)} {a : α} {b : β}
    (h : l.lookup a = some b) : (a, b) ∈ l := by
  induction l with
  | nil => cases h
  | cons q l ih =>
    obtain ⟨k, v⟩ := q
    by_cases hk : a == k
    · have hv : some v = some b := by simpa [List.lookup, hk] using h
      injection hv with hv
      subst hv
      have hk' : a = k := eq_of_beq hk
      subst hk'
      exact List.mem_cons_self _ _
    · have h' : l.lookup a = some b := by simpa [List.lookup, hk] using h
      exact List.mem_cons_of_mem _ (ih h')

lemma representations_lt {c : Char} {p : Nat} (h : representations c = some p) :
    p < 256 := by
  have hall : ∀ q ∈ representationsList, q.2 < 256 := by decide
  exact hall (c, p) (mem_of_lookup (by simpa [representations] using h))

set_option maxRecDepth 65536 in
lemma efisByteInv_efisByte {b : Nat} (h : b < 256) : efisByteInv (efisByte b) = b := by
  have hall : ∀ f : Fin 256, efisByteInv (efisByte f.val) = f.val := by decide
  exact hall ⟨b, h⟩

lemma dfsStep_lt {l : Nat} {s : String} {d0 d1 : List Nat} {i : Nat}
    (h0 : ∀ x ∈ d0, x < 256) (h : dfsStep l s d0 i = some d1) : ∀ x ∈ d1, x < 256 := by
  unfold dfsStep at h
  cases hc : (strUpper s).toList.get? i with
  | none => simp only [hc] at h; cases h
  | some c =>
    simp only [hc] at h
    cases hr : representations c with
    | none => simp only [hr] at h; cases h
    | some p =>
      simp only [hr, Option.some.injEq] at h
      subst h
      intro x hx
      rcases List.mem_or_eq_of_mem_set hx with hmem | hxe
      · exact h0 x hmem
      · subst hxe
        exact representations_lt hr

lemma foldlM_dfsStep_lt (l : Nat) (s : String) :
    ∀ (is : List Nat) (d0 : List Nat), (∀ x ∈ d0, x < 256) →
      ∀ d, is.foldlM (dfsStep l s) d0 = some d → ∀ x ∈ d, x < 256 := by
  intro is
  induction is with
  | nil =>
    intro d0 h0 d hd
    injection hd with hd
    subst hd
    exact h0
  | cons j is ih =>
    intro d0 h0 d hd
    rw [List.foldlM_cons] at hd
    cases hstep : dfsStep l s d0 j with
    | none => rw [hstep] at hd; cases hd
    | some d1 =>
      rw [hstep] at hd
      exact ih d1 (dfsStep_lt h0 hstep) d hd

lemma data_from_string_lt {l : Nat} {s : String} {d : List Nat}
    (h : data_from_string l s = some d) : ∀ x ∈ d, x < 256 := by
  unfold data_from_string at h
  exact foldlM_dfsStep_lt l s _ _ (fun x hx => by simp [List.eq_of_mem_replicate hx]) d h

/-- C9: the bit rearrangement of the secondary-display variant is a
    permutation of the 8 bit positions: the 8 source bits land on pairwise
    distinct output bits, the transform is injective on bytes (the inverse
    placement undoes it for all 256 byte values, hence for every supported
    glyph), and applying the inverse placement to
    `data_from_string_swapped_efis` recovers `data_from_string` exactly. -/
theorem c9_efis_permutation :
    ((List.range 8).map efisTargetBit).Nodup
  ∧ (∀ f : Fin 8, efisByte (1 <<< f.val) = 1 <<< efisTargetBit f.val)
  ∧ (∀ f : Fin 256, efisByteInv (efisByte f.val) = f.val)
  ∧ (∀ l s, (data_from_string_swapped_efis l s).map (List.map efisByteInv)
        = data_from_string l s) := by
  refine ⟨by decide, by decide, fun f => efisByteInv_efisByte f.isLt, ?_⟩
  intro l s
  unfold data_from_string_swapped_efis
  cases h : data_from_string l s with
  | none => rfl
  | some d =>
    simp only [Option.map_some']
    rw [List.map_map]
    have hcongr : List.map (efisByteInv ∘ efisByte) d = List.map id d :=
      List.map_congr_left (fun x hx => efisByteInv_efisByte (data_from_string_lt h x hx))
    rw [hcongr, List.map_id]

/-- C6: for every pair of consecutive snapshots and every bit index
    0..95, a 0-to-1 change of that bit produces exactly one press edge
    (count 1), a 1-to-0 change exactly one release edge, an unchanged bit
    no event (count 0); and the snapshot sequence all-zeros → bit 0 →
    all-zeros yields exactly one press edge then one release edge for
    bit 0 and no edges for any other bit. -/
theorem c6_edge_detection :
    (∀ prev now i : Nat,
        (edgesOf now prev).count (i, true)
            = (if i < BUTTONS_CNT ∧ now.testBit i = true ∧ prev.testBit i = false
               then 1 else 0)
      ∧ (edgesOf now prev).count (i, false)
            = (if i < BUTTONS_CNT ∧ now.testBit i = false ∧ prev.testBit i = true
               then 1 else 0))
  ∧ edgesOf 1 0 = [(0, true)]
  ∧ edgesOf 0 1 = [(0, false)] := by
  refine ⟨?_, by decide, by decide⟩
  intro prev now i
  unfold edgesOf
  rw [count_range_edge, count_range_edge]
  constructor
  · exact if_congr (by rw [edgeAt_eq]; simp) rfl rfl
  · exact if_congr (by rw [edgeAt_eq]; simp) rfl rfl

/-- C7: a button read that raised, or whose payload length is not 41,
    is discarded: the poll cycle generates no edges and keeps the previous
    snapshot; concretely, a valid read (bit 0 pressed) is dispatched, a
    following malformed read changes nothing, and the next valid read is
    diffed against the last valid snapshot, producing no spurious edges. -/
theorem c7_malformed_read :
    (∀ cache st, fcuPollCycle cache st Option.none = (st, []))
  ∧ (∀ cache st data, data.length ≠ 41 → fcuPollCycle cache st (some data) = (st, []))
  ∧ fcuPollCycle c7Cache c7S0 (some c7Read)
      = (c7S1, [Action.sendCommand "toliss_airbus/ias_mach_button_push"])
  ∧ fcuPollCycle c7Cache c7S1 (some [0]) = (c7S1, [])
  ∧ fcuPollCycle c7Cache c7S1 (some c7Read) = (c7S1, []) := by
  refine ⟨fun cache st => rfl, ?_, by decide, by decide, by decide⟩
  intro cache st data h
  simp [fcuPollCycle, h]

/-- C8: for every binding of kind `toggle` on a data value-key, a press
    edge emits exactly one write of the boolean negation of the cached
    value (cached 0 → one write of 1, cached 1 → one write of 0), and a
    release edge of a toggle binding performs no write and invokes no
    command. -/
theorem c8_toggle_dispatch :
    ∀ (cache : String → Option Int) (b : Button),
      b.type = BUTTON.TOGGLE → b.dreftype = DREF_TYPE.DATA →
      (cache b.dataref = some 0 →
        fcuPressActions cache b = [Action.writeDataRef b.dataref 1])
      ∧ (cache b.dataref = some 1 →
        fcuPressActions cache b = [Action.writeDataRef b.dataref 0])
      ∧ fcuReleaseActions b = [] := by
  intro cache b htype hdref
  unfold fcuPressActions fcuReleaseActions
  rw [htype, hdref]
  refine ⟨fun h0 => ?_, fun h1 => ?_, rfl⟩
  · rw [h0]; rfl
  · rw [h1]; rfl

/-- C8 witness: the toggle theorem applied to the AP1 binding with a
    cache holding 0. -/
theorem c8_toggle_dispatch_witness :
    fcuPressActions c8CacheZero c8Button = [Action.writeDataRef "AirbusFBW/AP1Engage" 1]
    ∧ fcuReleaseActions c8Button = [] :=
  ⟨(c8_toggle_dispatch c8CacheZero c8Button rfl rfl).1 rfl,
   (c8_toggle_dispatch c8CacheZero c8Button rfl rfl).2.2⟩

lemma getD_set_ne (l : List Nat) (a : Nat) {m n : Nat} (h : m ≠ n) :
    (l.set m a).getD n 0 = l.getD n 0 := by
  simp [List.getD_eq_getElem?_getD, List.getElem?_set_ne h]

lemma fcu_button_event_getD_eq (cache : String → Option Int) :
    ∀ (bl : List Button) (press release : List Nat) (i : Nat),
      (∀ b ∈ bl, b.id ≠ some i) →
      (fcu_button_event cache bl press release).1.getD i 0 = press.getD i 0
      ∧ (fcu_button_event cache bl press release).2.1.getD i 0 = release.getD i 0 := by
  intro bl
  induction bl with
  | nil => intro press release i h; exact ⟨rfl, rfl⟩
  | cons b rest ih =>
    intro press release i h
    have htail : ∀ b' ∈ rest, b'.id ≠ some i :=
      fun b' hb' => h b' (List.mem_cons_of_mem _ hb')
    unfold fcu_button_event
    split
    · exact ⟨rfl, rfl⟩
    · cases hb : b.id with
      | none => exact ih press release i htail
      | some j =>
        have hji : j ≠ i := by
          intro hji
          exact h b (List.mem_cons_self _ _) (by rw [hb, hji])
        have hpress1 :
            (if press.getD j 0 ≠ 0 then press.set j 0 else press).getD i 0
              = press.getD i 0 := by
          split
          · exact getD_set_ne _ _ hji
          · rfl
        have hrel1 :
            (if release.getD j 0 ≠ 0 then release.set j 0 else release).getD i 0
              = release.getD i 0 := by
          split
          · exact getD_set_ne _ _ hji
          · rfl
        obtain ⟨ih1, ih2⟩ := ih
          (if press.getD j 0 ≠ 0 then press.set j 0 else press)
          (if release.getD j 0 ≠ 0 then release.set j 0 else release) i htail
        exact ⟨ih1.trans hpress1, ih2.trans hrel1⟩

lemma anyPending_of_getD {l : List Nat} {i : Nat} (h : l.getD i 0 ≠ 0) :
    anyPending l = true := by
  unfold anyPending
  rw [List.any_eq_true]
  rw [List.getD_eq_getElem?_getD] at h
  cases hg : l[i]? with
  | none => rw [hg] at h; simp at h
  | some v =>
    rw [hg] at h
    simp only [Option.getD_some] at h
    exact ⟨v, List.getElem?_mem hg, by simpa using h⟩

/-- C10: `fcu_button_event` clears pending entries only at bit indices
    that occur as the id of some entry of the FCU binding table; bit 31
    has no binding, so a pending press on bit 31 survives dispatch
    unchanged, and afterwards the early-exit check (both pending vectors
    empty) is false — and stays false in every later call, since the flag
    is never cleared. -/
theorem c10_unbound_pending :
    ((buttonlistFcu.filterMap Button.id).all (fun j => j ≠ 31)) = true
  ∧ (∀ cache press release i, (∀ b ∈ buttonlistFcu, b.id ≠ some i) →
      (fcu_button_event cache buttonlistFcu press release).1.getD i 0 = press.getD i 0
      ∧ (fcu_button_event cache buttonlistFcu press release).2.1.getD i 0
          = release.getD i 0)
  ∧ (∀ cache press release, press.getD 31 0 ≠ 0 →
      (fcu_button_event cache buttonlistFcu press release).1.getD 31 0 ≠ 0
      ∧ pendingEmpty (fcu_button_event cache buttonlistFcu press release).1
          (fcu_button_event cache buttonlistFcu press release).2.1 = false) := by
  refine ⟨by decide,
    fun cache press release i h => fcu_button_event_getD_eq cache buttonlistFcu press release i h,
    ?_⟩
  intro cache press release h31
  have hnotbound : ∀ b ∈ buttonlistFcu, b.id ≠ some 31 := by decide
  obtain ⟨h1, _⟩ := fcu_button_event_getD_eq cache buttonlistFcu press release 31 hnotbound
  have hne : (fcu_button_event cache buttonlistFcu press release).1.getD 31 0 ≠ 0 := by
    rw [h1]; exact h31
  refine ⟨hne, ?_⟩
  unfold pendingEmpty
  rw [anyPending_of_getD hne]
  rfl

/-- C10 witness: the preservation and early-exit parts applied to a
    pending-press vector with only bit 31 set. -/
theorem c10_unbound_pending_witness :
    ((fcu_button_event c7Cache buttonlistFcu c10Press c10Release).1.getD 31 0
        = c10Press.getD 31 0)
    ∧ pendingEmpty (fcu_button_event c7Cache buttonlistFcu c10Press c10Release).1
        (fcu_button_event c7Cache buttonlistFcu c10Press c10Release).2.1 = false :=
  ⟨(c10_unbound_pending.2.1 c7Cache c10Press c10Release 31 (by decide)).1,
   (c10_unbound_pending.2.2 c7Cache c10Press c10Release (by decide)).2⟩

/-- C7 witness: the malformed-read theorem applied to a 2-byte payload. -/
theorem c7_malformed_read_witness :
    fcuPollCycle c7Cache c7S1 (some [0, 0]) = (c7S1, []) :=
  c7_malformed_read.2.1 c7Cache c7S1 [0, 0] (by decide)

end WinwingFcu
